import Mathlib

/-!
Shallow embedding of `src/front-end/src/utils/api.js` from the
Restaraunt-Reservation-App repository: the `fetchJson` primitive, the URL and
request construction of the exported operations, and their result handling.

JavaScript runtime values are modelled by `JsValue`; a settled network call is
modelled by a `FetchOutcome` (the response, or the error thrown by `fetch`);
the promise produced by an operation is modelled by a `FetchResult` together
with the list of errors logged via `console.error`.
-/

set_option autoImplicit false

namespace Api

mutual

/-- A JavaScript value, as far as this module manipulates them: strings,
(integer-valued) numbers, booleans, `null`, `undefined`, arrays and plain
objects with ordered fields. -/
inductive JsValue where
  | str (s : String)
  | num (n : Int)
  | bool (b : Bool)
  | null
  | undefined
  | arr (elems : JsArray)
  | obj (fields : JsFields)
  deriving DecidableEq, Repr

/-- The element list of a JavaScript array value. -/
inductive JsArray where
  | nil
  | cons (head : JsValue) (tail : JsArray)
  deriving DecidableEq, Repr

/-- The ordered field list of a JavaScript object value. -/
inductive JsFields where
  | nil
  | cons (key : String) (value : JsValue) (tail : JsFields)
  deriving DecidableEq, Repr

end

/-- Build a `JsFields` from a list of key/value pairs, in order. -/
def JsFields.ofList : List (String × JsValue) → JsFields
  | [] => .nil
  | (k, v) :: rest => .cons k v (JsFields.ofList rest)

/-- Build a `JsArray` from a list of values, in order. -/
def JsArray.ofList : List JsValue → JsArray
  | [] => .nil
  | v :: rest => .cons v (JsArray.ofList rest)

/-- First field of an object with the given key, as JavaScript property
lookup would find it. -/
def JsFields.lookup (k : String) : JsFields → Option JsValue
  | .nil => none
  | .cons k' v rest => if k' = k then some v else JsFields.lookup k rest

/-- A JavaScript exception as `fetchJson`'s catch block inspects it: only the
`name` is branched on (`error.name !== "AbortError"`); `message` carries the
rest of the error's identity so that re-raising "unchanged" is expressible. -/
structure JsError where
  name : String
  message : String
  deriving DecidableEq, Repr

/-- JavaScript truthiness of a value (`if (payload.error)`). -/
def truthy : JsValue → Bool
  | .str s => s ≠ ""
  | .num n => n ≠ 0
  | .bool b => b
  | .null => false
  | .undefined => false
  | .arr _ => true
  | .obj _ => true

/-- Property read `v[k]` on a value where the read is defined: objects yield
the first field named `k` (or `undefined` when absent), and primitives other
than `null`/`undefined` yield `undefined` for the properties this module
reads. -/
def getFieldD (v : JsValue) (k : String) : JsValue :=
  match v with
  | .obj fields =>
    match fields.lookup k with
    | some x => x
    | none => .undefined
  | _ => .undefined

/-- Property read `v[k]` including the failure case: reading a property of
`null` or `undefined` throws a `TypeError`, as `payload.error` would if the
parsed body were the JSON literal `null`. -/
def getFieldE (v : JsValue) (k : String) : Except JsError JsValue :=
  match v with
  | .null => .error ⟨"TypeError", "Cannot read properties of null"⟩
  | .undefined => .error ⟨"TypeError", "Cannot read properties of undefined"⟩
  | _ => .ok (getFieldD v k)

/-- Outcome of `response.json()`: a parsed payload, or the error the body
parser throws (e.g. a `SyntaxError` for a non-JSON body, or an `AbortError`
when the signal fires while the body is being read). -/
inductive BodyResult where
  | ok (payload : JsValue)
  | parseError (e : JsError)
  deriving DecidableEq, Repr

/-- Outcome of the `fetch(url, options)` call itself: an HTTP response with a
status and a body, or a thrown error (a network `TypeError`, or an
`AbortError` when the cancellation signal fires before the request settles). -/
inductive FetchOutcome where
  | response (status : Nat) (body : BodyResult)
  | fetchError (e : JsError)
  deriving DecidableEq, Repr

/-- How the promise returned by an operation settles: fulfilled with a value,
rejected with an object whose `message` field is the recorded value (the
`Promise.reject` path of `fetchJson`), or rejected with a re-raised
exception. -/
inductive FetchResult where
  | resolved (v : JsValue)
  | rejected (message : JsValue)
  | thrown (e : JsError)
  deriving DecidableEq, Repr

/-- Result of a call together with the errors it logged via
`console.error`. -/
structure FetchJsonOut where
  result : FetchResult
  logged : List JsError
  deriving DecidableEq, Repr

/-- The catch block of `fetchJson`: an error whose `name` is not
`"AbortError"` is logged (`console.error(error.stack)`) and re-thrown;
an `AbortError` resolves the call with the `onCancel` fallback. -/
def handleCatch (e : JsError) (onCancel : JsValue) : FetchJsonOut :=
  if e.name ≠ "AbortError" then ⟨.thrown e, [e]⟩
  else ⟨.resolved onCancel, []⟩

/-- Model of `fetchJson(url, options, onCancel)` after the network call
settled with `outcome`. Mirrors the source: a 204 status returns `null`
before the body is read; otherwise the body is parsed and `payload.error`,
when truthy, causes `return Promise.reject(...)` with the error under
`message` — a returned rejected promise, which the surrounding `try`/`catch`
does not intercept; otherwise the call resolves with `payload.data`. Errors
thrown by `fetch`, by `.json()`, or by the property reads land in the catch
block. -/
def fetchJson (outcome : FetchOutcome) (onCancel : JsValue) : FetchJsonOut :=
  match outcome with
  | .fetchError e => handleCatch e onCancel
  | .response status body =>
    if status = 204 then ⟨.resolved .null, []⟩
    else
      match body with
      | .parseError e => handleCatch e onCancel
      | .ok payload =>
        match getFieldE payload "error" with
        | .error e => handleCatch e onCancel
        | .ok errField =>
          if truthy errField then ⟨.rejected errField, []⟩
          else
            match getFieldE payload "data" with
            | .error e => handleCatch e onCancel
            | .ok dataField => ⟨.resolved dataField, []⟩

mutual

/-- JavaScript string coercion `String(v)`, as a template literal or
`URLSearchParams` would apply it. Numbers are integer-valued in this model.
(`value.toString()` on `null`/`undefined` would throw in JavaScript; the
coercion is modelled totally here with the `String(v)` results, the corner no
claim exercises.) -/
def jsToString : JsValue → String
  | .str s => s
  | .num n => toString n
  | .bool b => cond b "true" "false"
  | .null => "null"
  | .undefined => "undefined"
  | .arr elems => String.intercalate "," (jsToStringElemList elems)
  | .obj _ => "[object Object]"

/-- Element-wise coercion for `Array.prototype.toString` (a join with `","`,
where `null` and `undefined` elements become the empty string). -/
def jsToStringElemList : JsArray → List String
  | .nil => []
  | .cons v rest =>
    (match v with
      | .null => ""
      | .undefined => ""
      | v => jsToString v) :: jsToStringElemList rest

end

/-- Escaping of one character inside a JSON string literal. -/
def jsonEscapeChar (c : Char) : String :=
  if c = '"' then "\\\""
  else if c = '\\' then "\\\\"
  else if c = '\n' then "\\n"
  else if c = '\r' then "\\r"
  else if c = '\t' then "\\t"
  else String.singleton c

/-- A JSON string literal for `s`. -/
def jsonQuote (s : String) : String :=
  "\"" ++ String.join (s.data.map jsonEscapeChar) ++ "\""

mutual

/-- Model of `JSON.stringify`: `none` when the argument is `undefined` (where
`JSON.stringify` yields no string at all); object fields whose value is
`undefined` are omitted; `undefined` array elements serialize as `null`. -/
def jsonStringify : JsValue → Option String
  | .str s => some (jsonQuote s)
  | .num n => some (toString n)
  | .bool b => some (cond b "true" "false")
  | .null => some "null"
  | .undefined => none
  | .arr elems => some ("[" ++ String.intercalate "," (jsonStringifyElemList elems) ++ "]")
  | .obj fields => some ("\x7b" ++ String.intercalate "," (jsonStringifyFieldList fields) ++ "\x7d")

/-- Serialized array elements, in order. -/
def jsonStringifyElemList : JsArray → List String
  | .nil => []
  | .cons v rest => (jsonStringify v).getD "null" :: jsonStringifyElemList rest

/-- Serialized object entries, in order, dropping `undefined`-valued
fields. -/
def jsonStringifyFieldList : JsFields → List String
  | .nil => []
  | .cons k v rest =>
    match jsonStringify v with
    | none => jsonStringifyFieldList rest
    | some sv => (jsonQuote k ++ ":" ++ sv) :: jsonStringifyFieldList rest

end

/-- A `URL` object as this module uses it: the part before `?` and the
ordered key/value pairs held by its `searchParams`. -/
structure Url where
  path : String
  searchParams : List (String × String)
  deriving DecidableEq, Repr

/-- Model of `url.searchParams.append(key, value)`: the pair is appended
after all existing parameters. -/
def Url.appendParam (u : Url) (k v : String) : Url :=
  { u with searchParams := u.searchParams ++ [(k, v)] }

/-- The module-level `API_BASE_URL`: the `REACT_APP_API_BASE_URL` environment
value when set and non-empty (JavaScript `||` tests truthiness), else the
fixed loopback default. -/
def apiBaseUrl (envValue : Option String) : String :=
  match envValue with
  | some s => if s ≠ "" then s else "http://localhost:5001"
  | none => "http://localhost:5001"

/-- The per-call request configuration, as far as the claims inspect it: the
HTTP method (absent for the options objects that set none) and the serialized
body (absent for bodiless requests). The fixed JSON `headers` and the
cancellation `signal` are present on every options object in the source; the
signal's effect is captured by `FetchOutcome`. -/
structure RequestOptions where
  method : Option String := none
  body : Option String := none
  deriving DecidableEq, Repr

/-- Modelled from the spec: the default exports of the two external modules
`./format-reservation-date` and `./format-reservation-time`, whose sources
are not part of this repository snapshot. The spec treats them as "pure
post-processing functions with signature `(reservationList) ->
reservationList`", so each is an arbitrary pure function on values. -/
structure FormatModules where
  formatReservationDateExport : JsValue → JsValue
  formatReservationTimeExport : JsValue → JsValue

/-- The binding `formatReservationDate` of api.js, imported from
`"./format-reservation-date"`: that module's default export. -/
def formatReservationDate (m : FormatModules) : JsValue → JsValue :=
  m.formatReservationDateExport

/-- The binding `formatReservationTime` of api.js. Its import statement also
names the module `"./format-reservation-date"` (line 6 of the source), so the
binding denotes the date module's default export, not the time module's. -/
def formatReservationTime (m : FormatModules) : JsValue → JsValue :=
  m.formatReservationDateExport

/-- Model of `.then(f)` on a settled promise: `f` maps a fulfilled value,
rejections pass through. -/
def FetchResult.thenApply (r : FetchResult) (f : JsValue → JsValue) : FetchResult :=
  match r with
  | .resolved v => .resolved (f v)
  | r => r

/-- URL built by `listReservations`: `new URL` on the base plus
`/reservations`, then one `searchParams.append(key, value.toString())` per
entry of `params`, in entry order. -/
def listReservationsUrl (base : String) (params : List (String × JsValue)) : Url :=
  params.foldl (fun u kv => u.appendParam kv.1 (jsToString kv.2))
    { path := base ++ "/reservations", searchParams := [] }

/-- Result handling of `listReservations`: `fetchJson` with cancel fallback
`[]`, then `.then(formatReservationDate).then(formatReservationTime)`. -/
def listReservations (m : FormatModules) (outcome : FetchOutcome) : FetchJsonOut :=
  let out := fetchJson outcome (.arr .nil)
  { out with
    result := (out.result.thenApply (formatReservationDate m)).thenApply
      (formatReservationTime m) }

/-- URL built by `listTables`. -/
def listTablesUrl (base : String) : Url :=
  { path := base ++ "/tables", searchParams := [] }

/-- Options object of `listTables` (`method: "GET"`, no body). -/
def listTablesOptions : RequestOptions :=
  { method := some "GET" }

/-- Result handling of `listTables`: `fetchJson` with cancel fallback `[]`,
returned as-is. -/
def listTables (outcome : FetchOutcome) : FetchJsonOut :=
  fetchJson outcome (.arr .nil)

/-- URL string built by `createReservation`. -/
def createReservationUrl (base : String) : String :=
  base ++ "/reservations"

/-- Options object of `createReservation`: a POST whose body is
`JSON.stringify(\x7b data: newReservation \x7d)`. -/
def createReservationOptions (newReservation : JsValue) : RequestOptions :=
  { method := some "POST"
    body := jsonStringify (.obj (.cons "data" newReservation .nil)) }

/-- Result handling of `createReservation`: `await fetchJson(url, options)`
(no cancel fallback, so `undefined`), whose value is discarded; any
fulfillment is replaced by the literal string `"seated"`, while a rejection
propagates. -/
def createReservation (outcome : FetchOutcome) : FetchJsonOut :=
  let out := fetchJson outcome .undefined
  match out.result with
  | .resolved _ => { out with result := .resolved (.str "seated") }
  | _ => out

/-- URL built by `readReservations`: the reservation id is interpolated into
the path by a template literal. -/
def readReservationsUrl (base : String) (id : JsValue) : Url :=
  { path := base ++ "/reservations/" ++ jsToString id, searchParams := [] }

/-- Result handling of `readReservations`: `fetchJson` with cancel fallback
`[]`, then the two formatting `.then` steps. -/
def readReservations (m : FormatModules) (outcome : FetchOutcome) : FetchJsonOut :=
  let out := fetchJson outcome (.arr .nil)
  { out with
    result := (out.result.thenApply (formatReservationDate m)).thenApply
      (formatReservationTime m) }

/-- URL string built by `searchReservationsByPhone`: the phone number is
interpolated into the query part of the URL string by a template literal. -/
def searchReservationsByPhoneUrl (base : String) (phoneNumber : JsValue) : String :=
  base ++ "/reservations?mobile_number=" ++ jsToString phoneNumber

/-- Result handling of `searchReservationsByPhone`: `fetchJson` with cancel
fallback `[]`, then the two formatting `.then` steps. -/
def searchReservationsByPhone (m : FormatModules) (outcome : FetchOutcome) : FetchJsonOut :=
  let out := fetchJson outcome (.arr .nil)
  { out with
    result := (out.result.thenApply (formatReservationDate m)).thenApply
      (formatReservationTime m) }

/-! Helper lemmas. -/

/-- On a value that is neither `null` nor `undefined`, the property read does
not throw and yields the defaulted lookup. -/
theorem getFieldE_eq_ok (v : JsValue) (k : String) (h1 : v ≠ .null)
    (h2 : v ≠ .undefined) : getFieldE v k = .ok (getFieldD v k) := by
  cases v <;> simp_all [getFieldE]

/-- A value whose field read yields a string must be an object, hence not
`null`. -/
theorem ne_null_of_getFieldD_str {v : JsValue} {k : String} {s : String}
    (h : getFieldD v k = .str s) : v ≠ .null := by
  intro hv
  subst hv
  simp [getFieldD] at h

/-- A value whose field read yields a string must be an object, hence not
`undefined`. -/
theorem ne_undefined_of_getFieldD_str {v : JsValue} {k : String} {s : String}
    (h : getFieldD v k = .str s) : v ≠ .undefined := by
  intro hv
  subst hv
  simp [getFieldD] at h

/-- Folding `searchParams.append` over a parameter list appends each coerced
entry, in list order. -/
theorem foldl_appendParam_searchParams (params : List (String × JsValue)) (u : Url) :
    (params.foldl (fun u kv => u.appendParam kv.1 (jsToString kv.2)) u).searchParams
      = u.searchParams ++ params.map (fun kv => (kv.1, jsToString kv.2)) := by
  induction params generalizing u with
  | nil => simp
  | cons kv rest ih =>
    rw [List.foldl_cons, ih]
    simp [Url.appendParam]

/-- Folding `searchParams.append` never changes the path part of the URL. -/
theorem foldl_appendParam_path (params : List (String × JsValue)) (u : Url) :
    (params.foldl (fun u kv => u.appendParam kv.1 (jsToString kv.2)) u).path = u.path := by
  induction params generalizing u with
  | nil => rfl
  | cons kv rest ih =>
    rw [List.foldl_cons, ih]
    rfl

/-! Claim theorems. -/

/-- C1, counterexample: a response whose envelope carries the non-empty
error string `"boom"` but whose status is 204 is resolved with `null` by
`fetchJson` — the 204 branch returns before the envelope is read — so the
call does not reject with that error message, contradicting "regardless of
the HTTP status code". -/
theorem c1_error_ignored_on_204_counterexample :
    fetchJson (.response 204 (.ok (.obj (.cons "error" (.str "boom") .nil)))) .undefined
      = ⟨.resolved .null, []⟩ ∧
    (fetchJson (.response 204 (.ok (.obj (.cons "error" (.str "boom") .nil)))) .undefined).result
      ≠ .rejected (.str "boom") := by
  exact ⟨rfl, by decide⟩

/-- C1, amended: for every response with status other than 204 whose JSON
envelope carries a non-empty `error` string, `fetchJson` rejects with an
object whose message is exactly that string — regardless of the (non-204)
HTTP status code — and nothing is logged; it is never resolved with a
sentinel value. -/
theorem c1_nonempty_error_rejects (status : Nat) (payload : JsValue) (s : String)
    (onCancel : JsValue) (hstatus : status ≠ 204)
    (herr : getFieldD payload "error" = .str s) (hne : s ≠ "") :
    fetchJson (.response status (.ok payload)) onCancel = ⟨.rejected (.str s), []⟩ := by
  have h1 : payload ≠ .null := ne_null_of_getFieldD_str herr
  have h2 : payload ≠ .undefined := ne_undefined_of_getFieldD_str herr
  simp [fetchJson, hstatus, getFieldE_eq_ok payload _ h1 h2, herr, truthy, hne]

/-- Witness for the amended C1 at a concrete input: status 500, envelope
`\x7b error: "boom" \x7d`. -/
theorem c1_nonempty_error_rejects_witness :
    fetchJson (.response 500 (.ok (.obj (.cons "error" (.str "boom") .nil)))) .undefined
      = ⟨.rejected (.str "boom"), []⟩ :=
  c1_nonempty_error_rejects 500 (.obj (.cons "error" (.str "boom") .nil)) "boom"
    .undefined (by decide) (by decide) (by decide)

/-- C2: when the cancellation signal aborts the request before it settles —
`fetch` throws an error named `"AbortError"` — `fetchJson` resolves with the
configured `onCancel` fallback (callers that omit it get `undefined`), logs
nothing, and does not reject. -/
theorem c2_abort_resolves_fallback (e : JsError) (onCancel : JsValue)
    (habort : e.name = "AbortError") :
    fetchJson (.fetchError e) onCancel = ⟨.resolved onCancel, []⟩ := by
  simp [fetchJson, handleCatch, habort]

/-- Witness for C2 at a concrete abort with the default `undefined`
fallback. -/
theorem c2_abort_resolves_fallback_witness :
    fetchJson (.fetchError ⟨"AbortError", "The user aborted a request."⟩) .undefined
      = ⟨.resolved .undefined, []⟩ :=
  c2_abort_resolves_fallback ⟨"AbortError", "The user aborted a request."⟩ .undefined rfl

/-- C3: a response with status 204 resolves to exactly `null`, whatever the
body holds — even one whose body would fail to parse — because the 204 branch
returns before `response.json()` is reached. -/
theorem c3_status_204_resolves_null (body : BodyResult) (onCancel : JsValue) :
    fetchJson (.response 204 body) onCancel = ⟨.resolved .null, []⟩ := by
  simp [fetchJson]

/-- C4: for every response with status other than 204 whose parsed envelope
(any value on which the property reads are defined) has no truthy `error`
field, `fetchJson` resolves with the envelope's `data` field — `undefined`
when the field is absent. -/
theorem c4_no_error_resolves_data (status : Nat) (payload : JsValue)
    (onCancel : JsValue) (hstatus : status ≠ 204) (h1 : payload ≠ .null)
    (h2 : payload ≠ .undefined) (herr : truthy (getFieldD payload "error") = false) :
    fetchJson (.response status (.ok payload)) onCancel
      = ⟨.resolved (getFieldD payload "data"), []⟩ := by
  simp [fetchJson, hstatus, getFieldE_eq_ok payload _ h1 h2, herr]

/-- Witness for C4 at a concrete input: status 200, envelope without a `data`
field, resolving with `undefined`. -/
theorem c4_no_error_resolves_data_witness :
    fetchJson (.response 200 (.ok (.obj .nil))) .undefined
      = ⟨.resolved .undefined, []⟩ :=
  c4_no_error_resolves_data 200 (.obj .nil) .undefined (by decide) (by decide)
    (by decide) (by decide)

/-- C5: with distinct date and time exports (date wraps its argument in a
singleton array, time maps everything to the empty object), a successful
`listReservations` over the envelope with `data = []` resolves with the date
transform applied twice — both import bindings resolve the module
`"./format-reservation-date"` — and not with the date-then-time pipeline the
claim describes, so the time formatting transform is never applied. -/
theorem c5_time_formatting_never_applied :
    (listReservations
        { formatReservationDateExport := fun v => .arr (.cons v .nil)
          formatReservationTimeExport := fun _ => .obj .nil }
        (.response 200 (.ok (.obj (.cons "data" (.arr .nil) .nil))))).result
      = .resolved (.arr (.cons (.arr (.cons (.arr .nil) .nil)) .nil)) ∧
    (listReservations
        { formatReservationDateExport := fun v => .arr (.cons v .nil)
          formatReservationTimeExport := fun _ => .obj .nil }
        (.response 200 (.ok (.obj (.cons "data" (.arr .nil) .nil))))).result
      ≠ .resolved (.obj .nil) := by
  exact ⟨rfl, by decide⟩

/-- C6: `createReservation` issues a POST whose body is the JSON
serialization of the envelope wrapping `newReservation` under `data`, and
whenever `fetchJson` fulfills (with whatever value the server sent back), the
operation resolves to the literal string `"seated"`. -/
theorem c6_createReservation_post_body_and_seated (newReservation : JsValue)
    (outcome : FetchOutcome) (v : JsValue)
    (hres : (fetchJson outcome .undefined).result = .resolved v) :
    (createReservationOptions newReservation).method = some "POST" ∧
    (createReservationOptions newReservation).body
      = jsonStringify (.obj (.cons "data" newReservation .nil)) ∧
    (createReservation outcome).result = .resolved (.str "seated") := by
  refine ⟨rfl, rfl, ?_⟩
  simp only [createReservation]
  rw [hres]

/-- Witness for C6 at a concrete input: `newReservation` the empty object
(serialized body exhibited as a string), response 200 with an empty
envelope. -/
theorem c6_createReservation_post_body_and_seated_witness :
    (createReservationOptions (.obj .nil)).method = some "POST" ∧
    (createReservationOptions (.obj .nil)).body = some "\x7b\"data\":\x7b\x7d\x7d" ∧
    (createReservation (.response 200 (.ok (.obj .nil)))).result
      = .resolved (.str "seated") :=
  c6_createReservation_post_body_and_seated (.obj .nil)
    (.response 200 (.ok (.obj .nil))) .undefined (by decide)

/-- C7: the URL built by `listReservations` carries exactly the entries of
the parameter mapping as query parameters, each value coerced to text, in
insertion order, after the `/reservations` path; and
`searchReservationsByPhone` interpolates the coerced phone number as the
`mobile_number` query parameter of its URL string. -/
theorem c7_query_params_in_insertion_order (base : String)
    (params : List (String × JsValue)) (phoneNumber : JsValue) :
    (listReservationsUrl base params).searchParams
      = params.map (fun kv => (kv.1, jsToString kv.2)) ∧
    (listReservationsUrl base params).path = base ++ "/reservations" ∧
    searchReservationsByPhoneUrl base phoneNumber
      = base ++ "/reservations?mobile_number=" ++ jsToString phoneNumber := by
  refine ⟨?_, ?_, rfl⟩
  · simp [listReservationsUrl, foldl_appendParam_searchParams]
  · simp [listReservationsUrl, foldl_appendParam_path]

/-- C8: an exception whose name is not `"AbortError"` — whether thrown by
`fetch` itself (network failure) or by `response.json()` on a non-204
response (malformed body) — is logged and re-raised to the caller unchanged:
no retry, no recovery, no substitute value. -/
theorem c8_non_abort_errors_logged_and_rethrown (e : JsError) (onCancel : JsValue)
    (status : Nat) (hname : e.name ≠ "AbortError") (hstatus : status ≠ 204) :
    fetchJson (.fetchError e) onCancel = ⟨.thrown e, [e]⟩ ∧
    fetchJson (.response status (.parseError e)) onCancel = ⟨.thrown e, [e]⟩ := by
  constructor
  · simp [fetchJson, handleCatch, hname]
  · simp [fetchJson, handleCatch, hname, hstatus]

/-- Witness for C8 at a concrete input: a `SyntaxError` from a malformed
200-response body, also fed through the `fetch`-throw path. -/
theorem c8_non_abort_errors_logged_and_rethrown_witness :
    fetchJson (.fetchError ⟨"SyntaxError", "Unexpected token"⟩) .undefined
      = ⟨.thrown ⟨"SyntaxError", "Unexpected token"⟩, [⟨"SyntaxError", "Unexpected token"⟩]⟩ ∧
    fetchJson (.response 200 (.parseError ⟨"SyntaxError", "Unexpected token"⟩)) .undefined
      = ⟨.thrown ⟨"SyntaxError", "Unexpected token"⟩, [⟨"SyntaxError", "Unexpected token"⟩]⟩ :=
  c8_non_abort_errors_logged_and_rethrown ⟨"SyntaxError", "Unexpected token"⟩
    .undefined 200 (by decide) (by decide)

/-- C9: when the request of `createReservation` is aborted by the
cancellation signal, `fetchJson` resolves with its default `undefined`
fallback, that value is discarded, and the operation still resolves with the
literal string `"seated"` — not with the cancellation fallback. -/
theorem c9_createReservation_abort_still_seated (e : JsError)
    (habort : e.name = "AbortError") :
    (createReservation (.fetchError e)).result = .resolved (.str "seated") ∧
    (createReservation (.fetchError e)).result ≠ .resolved .undefined := by
  have h : fetchJson (.fetchError e) .undefined = ⟨.resolved .undefined, []⟩ := by
    simp [fetchJson, handleCatch, habort]
  have hc : createReservation (.fetchError e) = ⟨.resolved (.str "seated"), []⟩ := by
    simp [createReservation, h]
  exact ⟨by rw [hc], by rw [hc]; decide⟩

/-- Witness for C9 at a concrete abort error. -/
theorem c9_createReservation_abort_still_seated_witness :
    (createReservation (.fetchError ⟨"AbortError", "signal aborted"⟩)).result
      = .resolved (.str "seated") ∧
    (createReservation (.fetchError ⟨"AbortError", "signal aborted"⟩)).result
      ≠ .resolved .undefined :=
  c9_createReservation_abort_still_seated ⟨"AbortError", "signal aborted"⟩ rfl

/-- C10: on an abort, `listReservations`, `readReservations` and
`searchReservationsByPhone` resolve with their `[]` cancellation fallback
passed through the two formatting `.then` steps, and `listTables` resolves
with `[]` as-is; provided the date module's export maps arrays to arrays (the
spec's `(reservationList) -> reservationList` signature), the resolved value
is an array, never `undefined`. -/
theorem c10_collection_ops_abort_resolve_empty_array (m : FormatModules)
    (e : JsError) (habort : e.name = "AbortError")
    (hdate : ∀ elems, ∃ elems2,
      m.formatReservationDateExport (.arr elems) = .arr elems2) :
    (listReservations m (.fetchError e)).result
      = .resolved (formatReservationTime m (formatReservationDate m (.arr .nil))) ∧
    (readReservations m (.fetchError e)).result
      = .resolved (formatReservationTime m (formatReservationDate m (.arr .nil))) ∧
    (searchReservationsByPhone m (.fetchError e)).result
      = .resolved (formatReservationTime m (formatReservationDate m (.arr .nil))) ∧
    (listTables (.fetchError e)).result = .resolved (.arr .nil) ∧
    (listReservations m (.fetchError e)).result ≠ .resolved .undefined := by
  have h : fetchJson (.fetchError e) (.arr .nil) = ⟨.resolved (.arr .nil), []⟩ := by
    simp [fetchJson, handleCatch, habort]
  obtain ⟨e1, he1⟩ := hdate .nil
  obtain ⟨e2, he2⟩ := hdate e1
  refine ⟨?_, ?_, ?_, ?_, ?_⟩
  · simp [listReservations, h, FetchResult.thenApply]
  · simp [readReservations, h, FetchResult.thenApply]
  · simp [searchReservationsByPhone, h, FetchResult.thenApply]
  · simp [listTables, h]
  · simp [listReservations, h, FetchResult.thenApply, formatReservationDate,
      formatReservationTime, he1, he2]

/-- Witness for C10 at a concrete input: identity formatting exports and a
concrete abort error. -/
theorem c10_collection_ops_abort_resolve_empty_array_witness :
    (listReservations ⟨fun v => v, fun v => v⟩
        (.fetchError ⟨"AbortError", "aborted"⟩)).result = .resolved (.arr .nil) ∧
    (readReservations ⟨fun v => v, fun v => v⟩
        (.fetchError ⟨"AbortError", "aborted"⟩)).result = .resolved (.arr .nil) ∧
    (searchReservationsByPhone ⟨fun v => v, fun v => v⟩
        (.fetchError ⟨"AbortError", "aborted"⟩)).result = .resolved (.arr .nil) ∧
    (listTables (.fetchError ⟨"AbortError", "aborted"⟩)).result
      = .resolved (.arr .nil) ∧
    (listReservations ⟨fun v => v, fun v => v⟩
        (.fetchError ⟨"AbortError", "aborted"⟩)).result ≠ .resolved .undefined :=
  c10_collection_ops_abort_resolve_empty_array ⟨fun v => v, fun v => v⟩
    ⟨"AbortError", "aborted"⟩ rfl (fun elems => ⟨elems, rfl⟩)

end Api
